import Mathlib

/-!
Shallow embedding of `lib/ofp-monitor.c` (OpenFlow flow-monitoring /
flow-removal wire codec).  Pure C helpers become Lean functions; the
struct-field reads that each decode/encode entry point performs on wire
bytes are represented by structures holding exactly the fields the code
reads, and the external sub-codecs of §6 of the design (match codec,
action/instruction codec, group-mod/meter-mod codecs, raw-type
recognizer) appear as explicit oracle values/functions, since they are
out of scope for this translation layer.  Machine integers are `Nat`
with explicit `% 2^w` where C overflow semantics matter.  C functions
that can hit `OVS_NOT_REACHED()` (a fatal abort) are modelled with an
explicit `none` / `fatal` outcome.
-/

namespace OfpMonitor

/-- ROUND_UP(n, 8) from the OVS utility headers: round `n` up to the next
multiple of 8. -/
def roundUp8 (n : Nat) : Nat := ((n + 7) / 8) * 8

/-- Unsigned 32-bit subtraction `a - b` as C computes it on `unsigned int`
operands already reduced below `2^32 = 4294967296` (wraps around on
underflow). -/
def usub32 (a b : Nat) : Nat := (4294967296 + a - b) % 4294967296

/-- Bitwise complement of a 16-bit mask, i.e. the value that
`~mask` denotes once it is ANDed with a `uint16_t` operand in C. -/
def compl16 (mask : Nat) : Nat := 65535 ^^^ mask

/-- UINT64_MAX, the "count unknown" sentinel of the abstract records. -/
def UINT64_MAX : Nat := 2 ^ 64 - 1

/-- Returns `count` unchanged except that `UINT64_MAX` becomes 0
(`unknown_to_zero` in ofp-monitor.c). -/
def unknown_to_zero (count : Nat) : Nat :=
  if count ≠ UINT64_MAX then count else 0

/-- OpenFlow error codes returned by this file, plus a catch-all for
errors propagated unchanged from the external sub-codecs. -/
inductive OfpErr where
  | OFPBRC_BAD_LEN
  | OFPMOFC_BAD_FLAGS
  | NXBRC_MUST_BE_ZERO
  | NXBRC_FM_BAD_EVENT
  | OFPBFC_MSG_BAD_LEN
  | OFPBRC_BAD_VERSION
  | OFPBFC_MSG_UNSUP
  | subcodecErr (n : Nat)
  deriving DecidableEq, Repr

/-- Opaque stand-in for `struct minimatch`/`struct match` flow selectors:
the codec only ever moves them through the external match codec, except
that `ofputil_append_flow_update` reads and writes
`match.flow.tunnel.metadata.tab` (modelled as `tunTab`, a pointer
value).  The remaining content is opaque (`rest`). -/
structure MatchV where
  tunTab : Nat
  rest : Nat
  deriving DecidableEq, Repr

/- ---------------------------------------------------------------------
Event-kind translator (ofp-monitor.c lines 386-421).

The canonical event enumeration `enum ofp_flow_update_event` (OpenFlow
1.4, include/openflow/openflow-1.4.h): INITIAL=0 ADDED=1 REMOVED=2
MODIFIED=3 ABBREV=4 PAUSED=5 RESUMED=6.  The vendor-extension
enumeration `enum nx_flow_update_event` (include/openflow/nicira-ext.h):
ADDED=0 DELETED=1 MODIFIED=2 ABBREV=3.  Since C switches on the integer
values, both translators are modelled on the integer codes; `none`
stands for the `OVS_NOT_REACHED()` fatal default. -/

def OFPFME_INITIAL : Nat := 0
def OFPFME_ADDED : Nat := 1
def OFPFME_REMOVED : Nat := 2
def OFPFME_MODIFIED : Nat := 3
def OFPFME_ABBREV : Nat := 4
def OFPFME_PAUSED : Nat := 5
def OFPFME_RESUMED : Nat := 6

def NXFME_ADDED : Nat := 0
def NXFME_DELETED : Nat := 1
def NXFME_MODIFIED : Nat := 2
def NXFME_ABBREV : Nat := 3

/-- nx_to_ofp_flow_update_event (ofp-monitor.c:386-401): wire-to-canonical
direction; any code other than the four NXFME_* values hits
`OVS_NOT_REACHED()` (modelled as `none`). -/
def nx_to_ofp_flow_update_event (event : Nat) : Option Nat :=
  if event = NXFME_ADDED then some OFPFME_ADDED
  else if event = NXFME_DELETED then some OFPFME_REMOVED
  else if event = NXFME_MODIFIED then some OFPFME_MODIFIED
  else if event = NXFME_ABBREV then some OFPFME_ABBREV
  else none

/-- ofp_to_nx_flow_update_event (ofp-monitor.c:403-421):
canonical-to-wire direction.  `OFPFME_INITIAL` and `OFPFME_ADDED` both
map to `NXFME_ADDED` (same switch arm); `OFPFME_PAUSED`,
`OFPFME_RESUMED` and every other input fall into the
`OVS_NOT_REACHED()` default (modelled as `none`). -/
def ofp_to_nx_flow_update_event (event : Nat) : Option Nat :=
  if event = OFPFME_INITIAL ∨ event = OFPFME_ADDED then some NXFME_ADDED
  else if event = OFPFME_REMOVED then some NXFME_DELETED
  else if event = OFPFME_MODIFIED then some NXFME_MODIFIED
  else if event = OFPFME_ABBREV then some NXFME_ABBREV
  else none

/- ---------------------------------------------------------------------
Bit-flag translator (ofp-monitor.c lines 332-384).

Flag bit values, from include/openflow/nicira-ext.h (NXFMF_*) and
include/openflow/openflow-1.4.h (OFPFMF_*).  The ONFFMF_* bits of the
ONF extension coincide with the NXFMF_* values
(include/openflow/intel-ext... ONF extension header). -/

def NXFMF_INITIAL : Nat := 1
def NXFMF_ADD : Nat := 2
def NXFMF_DELETE : Nat := 4
def NXFMF_MODIFY : Nat := 8
def NXFMF_ACTIONS : Nat := 16
def NXFMF_OWN : Nat := 32

def OFPFMF_INITIAL : Nat := 1
def OFPFMF_ADD : Nat := 2
def OFPFMF_REMOVED : Nat := 4
def OFPFMF_MODIFY : Nat := 8
def OFPFMF_INSTRUCTIONS : Nat := 16
def OFPFMF_NO_ABBREV : Nat := 32
def OFPFMF_ONLY_OWN : Nat := 64

/-- nx_to_ofp_flow_monitor_flags (ofp-monitor.c:332-357). -/
def nx_to_ofp_flow_monitor_flags (flags : Nat) : Nat :=
  (if flags &&& NXFMF_INITIAL ≠ 0 then OFPFMF_INITIAL else 0) |||
  (if flags &&& NXFMF_ADD ≠ 0 then OFPFMF_ADD else 0) |||
  (if flags &&& NXFMF_DELETE ≠ 0 then OFPFMF_REMOVED else 0) |||
  (if flags &&& NXFMF_MODIFY ≠ 0 then OFPFMF_MODIFY else 0) |||
  (if flags &&& NXFMF_ACTIONS ≠ 0 then OFPFMF_INSTRUCTIONS else 0) |||
  (if flags &&& NXFMF_OWN ≠ 0 then OFPFMF_ONLY_OWN else 0)

/-- ofp_to_nx_flow_monitor_flags (ofp-monitor.c:359-384). -/
def ofp_to_nx_flow_monitor_flags (flags : Nat) : Nat :=
  (if flags &&& OFPFMF_INITIAL ≠ 0 then NXFMF_INITIAL else 0) |||
  (if flags &&& OFPFMF_ADD ≠ 0 then NXFMF_ADD else 0) |||
  (if flags &&& OFPFMF_REMOVED ≠ 0 then NXFMF_DELETE else 0) |||
  (if flags &&& OFPFMF_MODIFY ≠ 0 then NXFMF_MODIFY else 0) |||
  (if flags &&& OFPFMF_INSTRUCTIONS ≠ 0 then NXFMF_ACTIONS else 0) |||
  (if flags &&& OFPFMF_ONLY_OWN ≠ 0 then NXFMF_OWN else 0)

/- ---------------------------------------------------------------------
Flow-Removed codec (ofp-monitor.c lines 65-295). -/

/-- enum ofp_flow_removed_reason (include/openvswitch/ofp-monitor.h):
IDLE_TIMEOUT=0 HARD_TIMEOUT=1 DELETE=2 GROUP_DELETE=3 METER_DELETE=4
EVICTION=5, plus the internal OVS_OFPRR_NONE. -/
inductive ofp_flow_removed_reason where
  | OFPRR_IDLE_TIMEOUT
  | OFPRR_HARD_TIMEOUT
  | OFPRR_DELETE
  | OFPRR_GROUP_DELETE
  | OFPRR_METER_DELETE
  | OFPRR_EVICTION
  | OVS_OFPRR_NONE
  deriving DecidableEq, Repr

/-- enum ofputil_protocol (include/openvswitch/ofp-protocol.h), restricted
to the nine single-bit values the encode switch dispatches on. -/
inductive ofputil_protocol where
  | OFPUTIL_P_OF10_STD
  | OFPUTIL_P_OF10_STD_TID
  | OFPUTIL_P_OF10_NXM
  | OFPUTIL_P_OF10_NXM_TID
  | OFPUTIL_P_OF11_STD
  | OFPUTIL_P_OF12_OXM
  | OFPUTIL_P_OF13_OXM
  | OFPUTIL_P_OF14_OXM
  | OFPUTIL_P_OF15_OXM
  deriving DecidableEq, Repr

/-- The test `protocol & OFPUTIL_P_OF14_UP`, where ofp-protocol.h defines
OFPUTIL_P_OF14_UP = OFPUTIL_P_OF14_OXM | OFPUTIL_P_OF15_OXM. -/
def of14_up : ofputil_protocol → Bool
  | .OFPUTIL_P_OF14_OXM => true
  | .OFPUTIL_P_OF15_OXM => true
  | _ => false

/-- struct ofputil_flow_removed (include/openvswitch/ofp-monitor.h): the
abstract (canonical) flow-removed record.  `theMatch` stands for the
C `match` member (a Lean keyword). -/
structure ofputil_flow_removed where
  theMatch : MatchV
  cookie : Nat
  priority : Nat
  reason : ofp_flow_removed_reason
  table_id : Nat
  duration_sec : Nat
  duration_nsec : Nat
  idle_timeout : Nat
  hard_timeout : Nat
  packet_count : Nat
  byte_count : Nat
  deriving DecidableEq, Repr

/-- Wire image of struct ofp12_flow_removed plus the encoded match, as
filled in by the OFPRAW_OFPT11_FLOW_REMOVED encode branch. -/
structure ofp12_flow_removed where
  cookie : Nat
  priority : Nat
  reason : ofp_flow_removed_reason
  table_id : Nat
  duration_sec : Nat
  duration_nsec : Nat
  idle_timeout : Nat
  hard_timeout : Nat
  packet_count : Nat
  byte_count : Nat
  wireMatch : MatchV
  deriving DecidableEq, Repr

/-- Wire image of struct ofp15_flow_removed plus the encoded match and
the OXS statistics block (duration / packet / byte counts live in the
stats block for this variant). -/
structure ofp15_flow_removed where
  cookie : Nat
  priority : Nat
  reason : ofp_flow_removed_reason
  table_id : Nat
  idle_timeout : Nat
  hard_timeout : Nat
  wireMatch : MatchV
  oxs_duration_sec : Nat
  oxs_duration_nsec : Nat
  oxs_packet_count : Nat
  oxs_byte_count : Nat
  deriving DecidableEq, Repr

/-- Wire image of struct ofp10_flow_removed (legacy fixed-stats variant;
no table_id and no hard_timeout field on the wire). -/
structure ofp10_flow_removed where
  wireMatch : MatchV
  cookie : Nat
  priority : Nat
  reason : ofp_flow_removed_reason
  duration_sec : Nat
  duration_nsec : Nat
  idle_timeout : Nat
  packet_count : Nat
  byte_count : Nat
  deriving DecidableEq, Repr

/-- Wire image of struct nx_flow_removed (vendor-extension variant) plus
the encoded NXM match.  `table_id` here is the stored wire byte, which
the encoder sets to `fr->table_id + 1` (a `uint8_t`, so mod 256). -/
structure nx_flow_removed where
  cookie : Nat
  priority : Nat
  reason : ofp_flow_removed_reason
  table_id : Nat
  duration_sec : Nat
  duration_nsec : Nat
  idle_timeout : Nat
  match_len : Nat
  packet_count : Nat
  byte_count : Nat
  wireMatch : MatchV
  deriving DecidableEq, Repr

/-- The four wire variants an encoded flow-removed message can take,
tagged by the raw message type the encoder allocates. -/
inductive flow_removed_msg where
  | OFPRAW_OFPT11_FLOW_REMOVED (m : ofp12_flow_removed)
  | OFPRAW_OFPT15_FLOW_REMOVED (m : ofp15_flow_removed)
  | OFPRAW_OFPT10_FLOW_REMOVED (m : ofp10_flow_removed)
  | OFPRAW_NXT_FLOW_REMOVED (m : nx_flow_removed)
  deriving DecidableEq, Repr

/-- ofputil_encode_flow_removed (ofp-monitor.c:184-295).  The
`nxPutMatchLen` oracle stands for the external `nx_put_match` encoder's
returned match length (the encoded match itself is carried opaquely).
The reason downgrade happens once, before the protocol switch:
`if (reason == OFPRR_METER_DELETE && !(protocol & OFPUTIL_P_OF14_UP))
reason = OFPRR_DELETE;`. -/
def ofputil_encode_flow_removed (fr : ofputil_flow_removed)
    (protocol : ofputil_protocol) (nxPutMatchLen : MatchV → Nat) :
    flow_removed_msg :=
  let reason :=
    if fr.reason = .OFPRR_METER_DELETE ∧ of14_up protocol = false
    then ofp_flow_removed_reason.OFPRR_DELETE else fr.reason
  match protocol with
  | .OFPUTIL_P_OF11_STD | .OFPUTIL_P_OF12_OXM
  | .OFPUTIL_P_OF13_OXM | .OFPUTIL_P_OF14_OXM =>
    .OFPRAW_OFPT11_FLOW_REMOVED
      { cookie := fr.cookie
        priority := fr.priority
        reason := reason
        table_id := fr.table_id
        duration_sec := fr.duration_sec
        duration_nsec := fr.duration_nsec
        idle_timeout := fr.idle_timeout
        hard_timeout := fr.hard_timeout
        packet_count := fr.packet_count
        byte_count := fr.byte_count
        wireMatch := fr.theMatch }
  | .OFPUTIL_P_OF15_OXM =>
    .OFPRAW_OFPT15_FLOW_REMOVED
      { cookie := fr.cookie
        priority := fr.priority
        reason := reason
        table_id := fr.table_id
        idle_timeout := fr.idle_timeout
        hard_timeout := fr.hard_timeout
        wireMatch := fr.theMatch
        oxs_duration_sec := fr.duration_sec
        oxs_duration_nsec := fr.duration_nsec
        oxs_packet_count := fr.packet_count
        oxs_byte_count := fr.byte_count }
  | .OFPUTIL_P_OF10_STD | .OFPUTIL_P_OF10_STD_TID =>
    .OFPRAW_OFPT10_FLOW_REMOVED
      { wireMatch := fr.theMatch
        cookie := fr.cookie
        priority := fr.priority
        reason := reason
        duration_sec := fr.duration_sec
        duration_nsec := fr.duration_nsec
        idle_timeout := fr.idle_timeout
        packet_count := unknown_to_zero fr.packet_count
        byte_count := unknown_to_zero fr.byte_count }
  | .OFPUTIL_P_OF10_NXM | .OFPUTIL_P_OF10_NXM_TID =>
    .OFPRAW_NXT_FLOW_REMOVED
      { cookie := fr.cookie
        priority := fr.priority
        reason := reason
        table_id := (fr.table_id + 1) % 256
        duration_sec := fr.duration_sec
        duration_nsec := fr.duration_nsec
        idle_timeout := fr.idle_timeout
        match_len := nxPutMatchLen fr.theMatch
        packet_count := fr.packet_count
        byte_count := fr.byte_count
        wireMatch := fr.theMatch }

/-- The reason byte stored on the wire, whichever variant was encoded. -/
def flow_removed_msg_reason : flow_removed_msg → ofp_flow_removed_reason
  | .OFPRAW_OFPT11_FLOW_REMOVED m => m.reason
  | .OFPRAW_OFPT15_FLOW_REMOVED m => m.reason
  | .OFPRAW_OFPT10_FLOW_REMOVED m => m.reason
  | .OFPRAW_NXT_FLOW_REMOVED m => m.reason

/-- Projection of the stored table-id byte of a vendor-extension
flow-removed message. -/
def flow_removed_msg_nx_table_id : flow_removed_msg → Option Nat
  | .OFPRAW_NXT_FLOW_REMOVED m => some m.table_id
  | _ => none

/-- ofputil_decode_flow_removed (ofp-monitor.c:68-169) on a structured
wire message: each branch performs exactly the field assignments of the
corresponding raw-type arm.  The byte-level failure paths (match / OXS
sub-decode errors, leftover bytes) live in the external sub-codecs and
cannot arise on a structured record, so decode is total here; the NXT
branch recovers `table_id` via
`nfr->table_id ? nfr->table_id - 1 : 255`. -/
def ofputil_decode_flow_removed : flow_removed_msg → ofputil_flow_removed
  | .OFPRAW_OFPT15_FLOW_REMOVED m =>
    { theMatch := m.wireMatch
      cookie := m.cookie
      priority := m.priority
      reason := m.reason
      table_id := m.table_id
      duration_sec := m.oxs_duration_sec
      duration_nsec := m.oxs_duration_nsec
      idle_timeout := m.idle_timeout
      hard_timeout := m.hard_timeout
      packet_count := m.oxs_packet_count
      byte_count := m.oxs_byte_count }
  | .OFPRAW_OFPT11_FLOW_REMOVED m =>
    { theMatch := m.wireMatch
      cookie := m.cookie
      priority := m.priority
      reason := m.reason
      table_id := m.table_id
      duration_sec := m.duration_sec
      duration_nsec := m.duration_nsec
      idle_timeout := m.idle_timeout
      hard_timeout := m.hard_timeout
      packet_count := m.packet_count
      byte_count := m.byte_count }
  | .OFPRAW_OFPT10_FLOW_REMOVED m =>
    { theMatch := m.wireMatch
      cookie := m.cookie
      priority := m.priority
      reason := m.reason
      table_id := 255
      duration_sec := m.duration_sec
      duration_nsec := m.duration_nsec
      idle_timeout := m.idle_timeout
      hard_timeout := 0
      packet_count := m.packet_count
      byte_count := m.byte_count }
  | .OFPRAW_NXT_FLOW_REMOVED m =>
    { theMatch := m.wireMatch
      cookie := m.cookie
      priority := m.priority
      reason := m.reason
      table_id := if m.table_id ≠ 0 then m.table_id - 1 else 255
      duration_sec := m.duration_sec
      duration_nsec := m.duration_nsec
      idle_timeout := m.idle_timeout
      hard_timeout := 0
      packet_count := m.packet_count
      byte_count := m.byte_count }

/- ---------------------------------------------------------------------
Flow-Monitor-Request codec (ofp-monitor.c lines 436-641). -/

/-- enum ofp14_flow_monitor_command: ADD=0 MODIFY=1 DELETE=2. -/
def OFPFMC_ADD : Nat := 0
def OFPFMC_MODIFY : Nat := 1
def OFPFMC_DELETE : Nat := 2

/-- OFPG_ANY group wildcard (0xffffffff). -/
def OFPG_ANY : Nat := 4294967295

/-- struct ofputil_flow_monitor_request (the abstract subscription
descriptor).  `command` and port/group fields are kept as the integer
codes the C enums carry. -/
structure ofputil_flow_monitor_request where
  id : Nat
  command : Nat
  flags : Nat
  out_port : Nat
  out_group : Nat
  table_id : Nat
  theMatch : MatchV
  deriving DecidableEq, Repr

/-- Outcome of one ofputil_decode_flow_monitor_request call: success with
the filled-in request, EOF (no records left), or an OpenFlow error. -/
inductive fmr_result where
  | ok (rq : ofputil_flow_monitor_request)
  | eof
  | err (e : OfpErr)
  deriving DecidableEq, Repr

/-- Fields of one struct nx_flow_monitor_request record, plus the outcome
of the external `nx_pull_match` on the bytes that follow it.  `zerosOk`
is `is_all_zeros(nfmr->zeros, sizeof nfmr->zeros)`. -/
structure nx_flow_monitor_request where
  id : Nat
  flags : Nat
  out_port : Nat
  match_len : Nat
  table_id : Nat
  zerosOk : Bool
  pullMatch : Except OfpErr MatchV
  deriving Repr

/-- Fields of one struct onf_flow_monitor_request record (the
industry-extension variant).  `pullPort` is the outcome of
`ofputil_port_from_ofp11(ofmr->out_port, ...)` and `pullMatch` of
`ofputil_pull_ofp11_match`. -/
structure onf_flow_monitor_request where
  id : Nat
  flags : Nat
  match_len : Nat
  table_id : Nat
  zerosOk : Bool
  pullPort : Except OfpErr Nat
  pullMatch : Except OfpErr MatchV
  deriving Repr

/-- Fields of one struct ofp14_flow_monitor_request record
(current-standard variant; it has no must-be-zero pad). -/
structure ofp14_flow_monitor_request where
  monitor_id : Nat
  command : Nat
  flags : Nat
  out_group : Nat
  table_id : Nat
  pullPort : Except OfpErr Nat
  pullMatch : Except OfpErr MatchV
  deriving Repr

/-- Bad-flags test of the NXST_FLOW_MONITOR branch
(ofp-monitor.c:466-468): no add/delete/modify bit, or any bit outside
INITIAL|ADD|DELETE|MODIFY|ACTIONS|OWN. -/
def nx_flow_monitor_bad_flags (flags : Nat) : Bool :=
  flags &&& (NXFMF_ADD ||| NXFMF_DELETE ||| NXFMF_MODIFY) = 0 ∨
  flags &&& compl16 (NXFMF_INITIAL ||| NXFMF_ADD ||| NXFMF_DELETE |||
                     NXFMF_MODIFY ||| NXFMF_ACTIONS ||| NXFMF_OWN) ≠ 0

/-- Bad-flags test of the OFPST14_FLOW_MONITOR branch
(ofp-monitor.c:541-543): no add/removed/modify bit, or any bit outside
INITIAL|ADD|REMOVED|MODIFY|INSTRUCTIONS|ONLY_OWN (note that
OFPFMF_NO_ABBREV is not in the recognized set). -/
def ofp14_flow_monitor_bad_flags (flags : Nat) : Bool :=
  flags &&& (OFPFMF_ADD ||| OFPFMF_REMOVED ||| OFPFMF_MODIFY) = 0 ∨
  flags &&& compl16 (OFPFMF_INITIAL ||| OFPFMF_ADD ||| OFPFMF_REMOVED |||
                     OFPFMF_MODIFY ||| OFPFMF_INSTRUCTIONS |||
                     OFPFMF_ONLY_OWN) ≠ 0

/-- OFPRAW_NXST_FLOW_MONITOR_REQUEST branch of
ofputil_decode_flow_monitor_request (ofp-monitor.c:455-487).  `rq0` is
the caller's output struct; fields the branch does not assign keep
their previous (indeterminate) content. -/
def ofputil_decode_flow_monitor_request_nx
    (rq0 : ofputil_flow_monitor_request) (w : nx_flow_monitor_request) :
    fmr_result :=
  if nx_flow_monitor_bad_flags w.flags then .err .OFPMOFC_BAD_FLAGS
  else if w.zerosOk = false then .err .NXBRC_MUST_BE_ZERO
  else
    match w.pullMatch with
    | .error e => .err e
    | .ok m =>
      .ok { rq0 with
            id := w.id
            command := OFPFMC_ADD
            flags := nx_to_ofp_flow_monitor_flags w.flags
            out_port := w.out_port
            table_id := w.table_id
            out_group := OFPG_ANY
            theMatch := m }

/-- OFPRAW_ONFST13_FLOW_MONITOR_REQUEST branch
(ofp-monitor.c:488-522).  Same shape as the NX branch except that the
out_port goes through the OpenFlow 1.1 port decoder, which can fail. -/
def ofputil_decode_flow_monitor_request_onf
    (rq0 : ofputil_flow_monitor_request) (w : onf_flow_monitor_request) :
    fmr_result :=
  if nx_flow_monitor_bad_flags w.flags then .err .OFPMOFC_BAD_FLAGS
  else if w.zerosOk = false then .err .NXBRC_MUST_BE_ZERO
  else
    match w.pullPort with
    | .error e => .err e
    | .ok port =>
      match w.pullMatch with
      | .error e => .err e
      | .ok m =>
        .ok { rq0 with
              id := w.id
              command := OFPFMC_ADD
              flags := nx_to_ofp_flow_monitor_flags w.flags
              out_port := port
              table_id := w.table_id
              out_group := OFPG_ANY
              theMatch := m }

/-- OFPRAW_OFPST14_FLOW_MONITOR_REQUEST branch (ofp-monitor.c:523-559).
A record whose command is OFPFMC_DELETE skips flag validation and the
port/group/table fields and goes straight to pulling the match. -/
def ofputil_decode_flow_monitor_request_ofp14
    (rq0 : ofputil_flow_monitor_request)
    (w : ofp14_flow_monitor_request) : fmr_result :=
  let rq1 := { rq0 with id := w.monitor_id, command := w.command }
  if w.command = OFPFMC_DELETE then
    match w.pullMatch with
    | .error e => .err e
    | .ok m => .ok { rq1 with theMatch := m }
  else if ofp14_flow_monitor_bad_flags w.flags then .err .OFPMOFC_BAD_FLAGS
  else
    match w.pullPort with
    | .error e => .err e
    | .ok port =>
      match w.pullMatch with
      | .error e => .err e
      | .ok m =>
        .ok { rq1 with
              command := w.command
              flags := w.flags
              out_port := port
              out_group := w.out_group
              table_id := w.table_id
              theMatch := m }

/-- enum ofp_version values OFP10_VERSION..OFP15_VERSION. -/
inductive ofp_version where
  | OFP10_VERSION
  | OFP11_VERSION
  | OFP12_VERSION
  | OFP13_VERSION
  | OFP14_VERSION
  | OFP15_VERSION
  deriving DecidableEq, Repr

/-- Output buffer for ofputil_append_flow_monitor_request: its byte size
plus a count of the monitor-request records laid into it (the latter is
a ghost field that lets theorems speak about "appends one record"). -/
structure req_out_buf where
  size : Nat
  records : Nat
  deriving DecidableEq, Repr

/-- External encoders used by ofputil_append_flow_monitor_request:
`hdrNx`/`hdrOnf`/`hdrOfp14` are the message-header bytes `ofpraw_put`
lays down for the three raw types, and the two match encoders return
the bytes they append (nx_put_match returns the unpadded match_len; we
only need the appended byte count here, so one number stands for
both). -/
structure req_encode_ext where
  hdrNx : Nat
  hdrOnf : Nat
  hdrOfp14 : Nat
  nxPutMatch : MatchV → Nat
  oxmPutMatch : MatchV → ofp_version → Nat

/-- sizeof struct nx_flow_monitor_request /
onf_flow_monitor_request / ofp14_flow_monitor_request: each fixed
record part is 16 bytes. -/
def FLOW_MONITOR_REQUEST_FIXED_LEN : Nat := 16

/-- ofputil_append_flow_monitor_request (ofp-monitor.c:565-641).  Note
that in this source the whole version switch sits inside
`if (!msg->size) { ... }` (line 574), so the function does nothing at
all when the output buffer is non-empty; the nested
`if (!msg->size) ofpraw_put(...)` guards (lines 581, 600, 620) are the
per-version first-call header allocations. -/
def ofputil_append_flow_monitor_request (ext : req_encode_ext)
    (rq : ofputil_flow_monitor_request) (msg : req_out_buf)
    (version : ofp_version) : req_out_buf :=
  if msg.size ≠ 0 then msg
  else
    match version with
    | .OFP10_VERSION | .OFP11_VERSION | .OFP12_VERSION =>
      let m1 := if msg.size = 0 then { msg with size := msg.size + ext.hdrNx }
                else msg
      { size := m1.size + FLOW_MONITOR_REQUEST_FIXED_LEN +
                ext.nxPutMatch rq.theMatch
        records := m1.records + 1 }
    | .OFP13_VERSION =>
      let m1 := if msg.size = 0 then { msg with size := msg.size + ext.hdrOnf }
                else msg
      { size := m1.size + FLOW_MONITOR_REQUEST_FIXED_LEN +
                ext.oxmPutMatch rq.theMatch version
        records := m1.records + 1 }
    | .OFP14_VERSION | .OFP15_VERSION =>
      let m1 := if msg.size = 0 then
                  { msg with size := msg.size + ext.hdrOfp14 }
                else msg
      { size := m1.size + FLOW_MONITOR_REQUEST_FIXED_LEN +
                ext.oxmPutMatch rq.theMatch version
        records := m1.records + 1 }

/- ---------------------------------------------------------------------
Flow-Update-Stream codec (ofp-monitor.c lines 821-1276).

Record sizes, from the wire-format structs: the two record headers
(struct nx_flow_update_header / struct ofp_flow_update_header) are 4
bytes each; the abbreviated and paused/resumed records
(nx_flow_update_abbrev, ofp_flow_update_abbrev, ofp_flow_update_paused)
are 8 bytes; the fixed part of a full record (nx_flow_update_full /
ofp_flow_update_full) is 24 bytes. -/

def FLOW_UPDATE_HEADER_LEN : Nat := 4
def FLOW_UPDATE_ABBREV_LEN : Nat := 8
def FLOW_UPDATE_PAUSED_LEN : Nat := 8
def FLOW_UPDATE_FULL_FIXED_LEN : Nat := 24

/-- struct ofputil_flow_update: the abstract record one decode call fills
in.  `ofpacts`/`ofpacts_len` mirror the borrow of the caller's scratch
buffer (`update->ofpacts = ofpacts->data; update->ofpacts_len =
ofpacts->size`), with the buffer content as an opaque list. -/
structure ofputil_flow_update where
  event : Nat
  xid : Nat
  reason : Nat
  idle_timeout : Nat
  hard_timeout : Nat
  table_id : Nat
  cookie : Nat
  priority : Nat
  theMatch : MatchV
  ofpacts : List Nat
  ofpacts_len : Nat
  deriving DecidableEq, Repr

/-- A zero-initialized ofputil_flow_update, standing for the caller's
output struct before a decode call. -/
def flow_update_zero : ofputil_flow_update :=
  { event := 0, xid := 0, reason := 0, idle_timeout := 0, hard_timeout := 0
    table_id := 0, cookie := 0, priority := 0, theMatch := ⟨0, 0⟩
    ofpacts := [], ofpacts_len := 0 }

/-- Outcome of one ofputil_decode_flow_update call.  `ok u consumed`
reports the bytes pulled from the message by the successful call;
`fatal` is `OVS_NOT_REACHED()` (process abort, no return). -/
inductive flow_update_result where
  | eof
  | fatal
  | err (e : OfpErr)
  | ok (u : ofputil_flow_update) (consumed : Nat)
  deriving DecidableEq, Repr

/-- The byte count a successful decode call consumed, if it succeeded. -/
def flow_update_result.consumed : flow_update_result → Option Nat
  | .ok _ c => some c
  | _ => none

/-- What one NXST/ONFST13_FLOW_MONITOR_REPLY decode call reads: the
remaining byte count, the front record's header and fixed-part fields,
and the outcomes of the external match/action pullers.  Per the
nx-match interface, a successful `nx_pull_match(msg, match_len, ...)`
consumes `ROUND_UP(match_len, 8)` bytes, and a successful
`ofpacts_pull_openflow_actions(msg, actions_len, ...)` consumes exactly
`actions_len` bytes. -/
structure nx_update_front where
  size : Nat
  event : Nat
  length : Nat
  xid : Nat
  reason : Nat
  idle_timeout : Nat
  hard_timeout : Nat
  table_id : Nat
  cookie : Nat
  priority : Nat
  match_len : Nat
  pullMatch : Except OfpErr MatchV
  pullActs : Except OfpErr (List Nat)
  deriving Repr

/-- OFPRAW_NXST_FLOW_MONITOR_REPLY / OFPRAW_ONFST13_FLOW_MONITOR_REPLY
branch of ofputil_decode_flow_update (ofp-monitor.c:846-935), after the
shared preamble (ofpbuf_clear / EOF test).  Note the source converts
the wire event with `nx_to_ofp_flow_update_event` (fatal on
unrecognized codes) before the declared-length checks, which makes the
final `NXBRC_FM_BAD_EVENT` arm unreachable in this family.  The two
sub-variants differ only in which external pullers run; the byte
accounting is identical, so one function with the NX-side pullers
stands for both. -/
def ofputil_decode_flow_update_nx (u0 : ofputil_flow_update)
    (m : nx_update_front) : flow_update_result :=
  if m.size = 0 then .eof
  else if m.size < FLOW_UPDATE_HEADER_LEN then .err .OFPBRC_BAD_LEN
  else
    match nx_to_ofp_flow_update_event m.event with
    | none => .fatal
    | some ev =>
      if m.length > m.size ∨ m.length % 8 ≠ 0 then .err .OFPBRC_BAD_LEN
      else if ev = OFPFME_ABBREV then
        if m.length ≠ FLOW_UPDATE_ABBREV_LEN then .err .OFPBRC_BAD_LEN
        else .ok { u0 with event := ev, xid := m.xid } FLOW_UPDATE_ABBREV_LEN
      else if ev = OFPFME_ADDED ∨ ev = OFPFME_REMOVED ∨ ev = OFPFME_MODIFIED
      then
        if m.length < FLOW_UPDATE_FULL_FIXED_LEN then .err .OFPBRC_BAD_LEN
        else if FLOW_UPDATE_FULL_FIXED_LEN + m.match_len > m.length then
          .err .OFPBRC_BAD_LEN
        else
          let u1 := { u0 with
                      event := ev
                      reason := m.reason
                      idle_timeout := m.idle_timeout
                      hard_timeout := m.hard_timeout
                      table_id := m.table_id
                      cookie := m.cookie
                      priority := m.priority }
          match m.pullMatch with
          | .error e => .err e
          | .ok mt =>
            let actions_len :=
              usub32 m.length
                (FLOW_UPDATE_FULL_FIXED_LEN + roundUp8 m.match_len)
            match m.pullActs with
            | .error e => .err e
            | .ok acts =>
              .ok { u1 with
                    theMatch := mt
                    ofpacts := acts
                    ofpacts_len := acts.length }
                 (FLOW_UPDATE_FULL_FIXED_LEN + roundUp8 m.match_len +
                  actions_len)
      else .err .NXBRC_FM_BAD_EVENT

/-- What one OFPST14_FLOW_MONITOR_REPLY decode call reads.  For this
family `ofputil_pull_ofp11_match` reports the padded match length it
consumed (second component of `pullMatch`), and a successful
`ofpacts_pull_openflow_instructions(msg, n, ...)` consumes exactly `n`
bytes. -/
structure ofp_update_front where
  size : Nat
  event : Nat
  length : Nat
  xid : Nat
  reason : Nat
  idle_timeout : Nat
  hard_timeout : Nat
  table_id : Nat
  cookie : Nat
  priority : Nat
  pullMatch : Except OfpErr (MatchV × Nat)
  pullInstrs : Except OfpErr (List Nat)
  deriving Repr

/-- OFPRAW_OFPST14_FLOW_MONITOR_REPLY branch of
ofputil_decode_flow_update (ofp-monitor.c:936-1015).  Here the wire
event is used directly (`update->event = ntohs(ofuh->event)`), so
unknown events reach the typed `NXBRC_FM_BAD_EVENT` return after the
length checks. -/
def ofputil_decode_flow_update_ofp14 (u0 : ofputil_flow_update)
    (m : ofp_update_front) : flow_update_result :=
  if m.size = 0 then .eof
  else if m.size < FLOW_UPDATE_HEADER_LEN then .err .OFPBRC_BAD_LEN
  else
    let ev := m.event
    if m.length > m.size ∨ m.length % 8 ≠ 0 then .err .OFPBRC_BAD_LEN
    else if ev = OFPFME_ABBREV then
      if m.length ≠ FLOW_UPDATE_ABBREV_LEN then .err .OFPBRC_BAD_LEN
      else .ok { u0 with event := ev, xid := m.xid } FLOW_UPDATE_ABBREV_LEN
    else if ev = OFPFME_PAUSED ∨ ev = OFPFME_RESUMED then
      if m.length ≠ FLOW_UPDATE_PAUSED_LEN then .err .OFPBRC_BAD_LEN
      else .ok { u0 with event := ev } FLOW_UPDATE_PAUSED_LEN
    else if ev = OFPFME_INITIAL ∨ ev = OFPFME_ADDED ∨ ev = OFPFME_REMOVED ∨
            ev = OFPFME_MODIFIED then
      if m.length < FLOW_UPDATE_FULL_FIXED_LEN then .err .OFPBRC_BAD_LEN
      else if FLOW_UPDATE_FULL_FIXED_LEN > m.length then .err .OFPBRC_BAD_LEN
      else
        let u1 := { u0 with
                    event := ev
                    reason := m.reason
                    idle_timeout := m.idle_timeout
                    hard_timeout := m.hard_timeout
                    table_id := m.table_id
                    cookie := m.cookie
                    priority := m.priority }
        match m.pullMatch with
        | .error e => .err e
        | .ok (mt, padded_match_len) =>
          let instructions_len :=
            usub32 m.length (FLOW_UPDATE_FULL_FIXED_LEN + padded_match_len)
          match m.pullInstrs with
          | .error e => .err e
          | .ok acts =>
            .ok { u1 with
                  theMatch := mt
                  ofpacts := acts
                  ofpacts_len := acts.length }
               (FLOW_UPDATE_FULL_FIXED_LEN + padded_match_len +
                instructions_len)
    else .err .NXBRC_FM_BAD_EVENT

/- ---------------------------------------------------------------------
Stream-level view of the update decoder, for the iteration/termination
property.  A well-formed buffer is a concatenation of records; each
record is described by the data a well-formed encoder wrote for it, and
its byte count on the wire.  Because every successful decode call
consumes exactly the front record's bytes (proved below from the step
function), iterating the step function down the list is the same as
repeatedly calling ofputil_decode_flow_update on the byte buffer. -/

/-- One record of a vendor/industry-extension family reply: the
abbreviated form, or a full form with its fixed fields, match (whose
NXM encoding occupies `ROUND_UP(match_len, 8)` bytes) and actions block
of `acts_len` bytes. -/
inductive nx_upd_rec where
  | nxAbbrev (xid : Nat)
  | nxFull (event reason idle_timeout hard_timeout table_id cookie
            priority match_len : Nat) (mt : MatchV) (acts : List Nat)
           (acts_len : Nat)
  deriving Repr

/-- Bytes the record occupies on the wire (also the length its header
declares). -/
def nx_upd_rec.wireLen : nx_upd_rec → Nat
  | .nxAbbrev _ => FLOW_UPDATE_ABBREV_LEN
  | .nxFull _ _ _ _ _ _ _ ml _ _ al =>
    FLOW_UPDATE_FULL_FIXED_LEN + roundUp8 ml + al

/-- Well-formedness of one NX-family record: the wire event code is one
of ADDED/DELETED/MODIFIED for full records, the actions block is a
whole number of 8-byte units (every OpenFlow action encoding is), and
the declared length fits its 16-bit field. -/
def nx_upd_rec.wfb : nx_upd_rec → Bool
  | .nxAbbrev _ => true
  | .nxFull ev _ _ _ _ _ _ ml _ _ al =>
    (ev = NXFME_ADDED ∨ ev = NXFME_DELETED ∨ ev = NXFME_MODIFIED) ∧
    al % 8 = 0 ∧
    FLOW_UPDATE_FULL_FIXED_LEN + roundUp8 ml + al < 65536

/-- The nx_update_front that ofputil_decode_flow_update reads when `r`
is the front record and `rest` more bytes follow it. -/
def nx_upd_rec.front (r : nx_upd_rec) (rest : Nat) : nx_update_front :=
  match r with
  | .nxAbbrev x =>
    { size := FLOW_UPDATE_ABBREV_LEN + rest
      event := NXFME_ABBREV
      length := FLOW_UPDATE_ABBREV_LEN
      xid := x
      reason := 0, idle_timeout := 0, hard_timeout := 0, table_id := 0
      cookie := 0, priority := 0, match_len := 0
      pullMatch := .ok ⟨0, 0⟩
      pullActs := .ok [] }
  | .nxFull ev re it ht ti co pr ml mt acts al =>
    { size := FLOW_UPDATE_FULL_FIXED_LEN + roundUp8 ml + al + rest
      event := ev
      length := FLOW_UPDATE_FULL_FIXED_LEN + roundUp8 ml + al
      xid := 0
      reason := re, idle_timeout := it, hard_timeout := ht, table_id := ti
      cookie := co, priority := pr, match_len := ml
      pullMatch := .ok mt
      pullActs := .ok acts }

/-- One record of a current-standard (OF1.4/1.5) family reply.
`match_padded` is the padded byte count the OXM match occupies (what
`ofputil_pull_ofp11_match` reports), `instrs_len` the instruction-block
byte count. -/
inductive ofp_upd_rec where
  | ofpAbbrev (xid : Nat)
  | ofpPaused
  | ofpResumed
  | ofpFull (event reason idle_timeout hard_timeout table_id cookie
             priority match_padded : Nat) (mt : MatchV) (instrs : List Nat)
            (instrs_len : Nat)
  deriving Repr

def ofp_upd_rec.wireLen : ofp_upd_rec → Nat
  | .ofpAbbrev _ => FLOW_UPDATE_ABBREV_LEN
  | .ofpPaused => FLOW_UPDATE_PAUSED_LEN
  | .ofpResumed => FLOW_UPDATE_PAUSED_LEN
  | .ofpFull _ _ _ _ _ _ _ mp _ _ il =>
    FLOW_UPDATE_FULL_FIXED_LEN + mp + il

def ofp_upd_rec.wfb : ofp_upd_rec → Bool
  | .ofpAbbrev _ => true
  | .ofpPaused => true
  | .ofpResumed => true
  | .ofpFull ev _ _ _ _ _ _ mp _ _ il =>
    (ev = OFPFME_INITIAL ∨ ev = OFPFME_ADDED ∨ ev = OFPFME_REMOVED ∨
     ev = OFPFME_MODIFIED) ∧
    mp % 8 = 0 ∧ il % 8 = 0 ∧
    FLOW_UPDATE_FULL_FIXED_LEN + mp + il < 65536

def ofp_upd_rec.front (r : ofp_upd_rec) (rest : Nat) : ofp_update_front :=
  match r with
  | .ofpAbbrev x =>
    { size := FLOW_UPDATE_ABBREV_LEN + rest
      event := OFPFME_ABBREV
      length := FLOW_UPDATE_ABBREV_LEN
      xid := x
      reason := 0, idle_timeout := 0, hard_timeout := 0, table_id := 0
      cookie := 0, priority := 0
      pullMatch := .ok (⟨0, 0⟩, 0)
      pullInstrs := .ok [] }
  | .ofpPaused =>
    { size := FLOW_UPDATE_PAUSED_LEN + rest
      event := OFPFME_PAUSED
      length := FLOW_UPDATE_PAUSED_LEN
      xid := 0
      reason := 0, idle_timeout := 0, hard_timeout := 0, table_id := 0
      cookie := 0, priority := 0
      pullMatch := .ok (⟨0, 0⟩, 0)
      pullInstrs := .ok [] }
  | .ofpResumed =>
    { size := FLOW_UPDATE_PAUSED_LEN + rest
      event := OFPFME_RESUMED
      length := FLOW_UPDATE_PAUSED_LEN
      xid := 0
      reason := 0, idle_timeout := 0, hard_timeout := 0, table_id := 0
      cookie := 0, priority := 0
      pullMatch := .ok (⟨0, 0⟩, 0)
      pullInstrs := .ok [] }
  | .ofpFull ev re it ht ti co pr mp mt instrs il =>
    { size := FLOW_UPDATE_FULL_FIXED_LEN + mp + il + rest
      event := ev
      length := FLOW_UPDATE_FULL_FIXED_LEN + mp + il
      xid := 0
      reason := re, idle_timeout := it, hard_timeout := ht, table_id := ti
      cookie := co, priority := pr
      pullMatch := .ok (mt, mp)
      pullInstrs := .ok instrs }

/-- How a repeated-decode run ends: the EOF return (EndOfRecords), a
typed error, or an `OVS_NOT_REACHED()` abort. -/
inductive stream_end where
  | endOfRecords
  | failed (e : OfpErr)
  | aborted
  deriving DecidableEq, Repr

/-- Total bytes of an NX-family record sequence (the buffer length a
well-formed encoder produced for it). -/
def nx_stream_size (rs : List nx_upd_rec) : Nat :=
  (rs.map nx_upd_rec.wireLen).sum

def ofp_stream_size (rs : List ofp_upd_rec) : Nat :=
  (rs.map ofp_upd_rec.wireLen).sum

/-- Repeatedly calling ofputil_decode_flow_update on an NX-family buffer:
returns the per-call consumed byte counts of the successful calls, and
how the run ended.  Each successful call consumes the front record's
bytes, so the remaining buffer after it is the remaining record list. -/
def decode_nx_stream : List nx_upd_rec → List Nat × stream_end
  | [] => ([], .endOfRecords)
  | r :: rest =>
    match ofputil_decode_flow_update_nx flow_update_zero
            (r.front (nx_stream_size rest)) with
    | .ok _ c =>
      let p := decode_nx_stream rest
      (c :: p.1, p.2)
    | .err e => ([], .failed e)
    | .fatal => ([], .aborted)
    | .eof => ([], .endOfRecords)

def decode_ofp_stream : List ofp_upd_rec → List Nat × stream_end
  | [] => ([], .endOfRecords)
  | r :: rest =>
    match ofputil_decode_flow_update_ofp14 flow_update_zero
            (r.front (ofp_stream_size rest)) with
    | .ok _ c =>
      let p := decode_ofp_stream rest
      (c :: p.1, p.2)
    | .err e => ([], .failed e)
    | .fatal => ([], .aborted)
    | .eof => ([], .endOfRecords)

/- ---------------------------------------------------------------------
Flow-update append (ofp-monitor.c lines 1181-1276). -/

/-- External encoders ofputil_append_flow_update calls: the byte counts
each appends to the tail message.  The match encoders see the match
exactly as it stands at call time (i.e. with the substituted
tunnel-metadata table). -/
structure upd_encode_ext where
  oxmPutMatch : MatchV → ofp_version → Nat
  nxPutMatch : MatchV → Nat
  putInstrs : List Nat → Nat
  putActs : List Nat → Nat

/-- ofputil_append_flow_update (ofp-monitor.c:1181-1276).  The function
saves `update->match.flow.tunnel.metadata.tab`, substitutes the
caller-supplied `tun_table`, appends one record to the tail message of
`replies` (modelled by its size `tailSize`), and restores the saved
pointer before returning.  `none` models the `OVS_NOT_REACHED()` abort
that `ofp_to_nx_flow_update_event` raises when a pre-OF14 family is
asked to encode an event with no wire mapping (paused/resumed); on that
path the function never returns.  On return it yields the update struct
as the caller now sees it and the new tail-message size. -/
def ofputil_append_flow_update (ext : upd_encode_ext)
    (update : ofputil_flow_update) (tailSize : Nat) (tun_table : Nat)
    (version : ofp_version) : Option (ofputil_flow_update × Nat) :=
  let orig_tun_table := update.theMatch.tunTab
  let u := { update with theMatch := { update.theMatch with
                                       tunTab := tun_table } }
  let restore := fun (u2 : ofputil_flow_update) =>
    { u2 with theMatch := { u2.theMatch with tunTab := orig_tun_table } }
  match version with
  | .OFP10_VERSION | .OFP11_VERSION | .OFP12_VERSION | .OFP13_VERSION =>
    if u.event = OFPFME_ABBREV then
      some (restore u, tailSize + FLOW_UPDATE_ABBREV_LEN)
    else
      let match_bytes :=
        if version = .OFP13_VERSION then ext.oxmPutMatch u.theMatch version
        else ext.nxPutMatch u.theMatch
      let acts_bytes :=
        if version = .OFP13_VERSION then ext.putInstrs u.ofpacts
        else ext.putActs u.ofpacts
      match ofp_to_nx_flow_update_event u.event with
      | none => none
      | some _ =>
        some (restore u,
              tailSize + FLOW_UPDATE_FULL_FIXED_LEN + match_bytes +
              acts_bytes)
  | .OFP14_VERSION | .OFP15_VERSION =>
    if u.event = OFPFME_ABBREV then
      some (restore u, tailSize + FLOW_UPDATE_ABBREV_LEN)
    else
      some (restore u,
            tailSize + FLOW_UPDATE_FULL_FIXED_LEN +
            ext.oxmPutMatch u.theMatch version + ext.putInstrs u.ofpacts)

/- ---------------------------------------------------------------------
Request-Forward codec (ofp-monitor.c lines 1396-1455). -/

/-- enum ofptype values as far as the decoder cares: the two supported
inner types, and everything else. -/
inductive ofptype where
  | OFPTYPE_GROUP_MOD
  | OFPTYPE_METER_MOD
  | otherType (n : Nat)
  deriving DecidableEq, Repr

/-- enum ofp_requestforward_reason: GROUP_MOD=0, METER_MOD=1. -/
def OFPRFR_GROUP_MOD : Nat := 0
def OFPRFR_METER_MOD : Nat := 1

/-- struct ofputil_requestforward after a successful decode: the wrapper
owns exactly one decoded inner record (opaque here). -/
structure ofputil_requestforward where
  xid : Nat
  reason : Nat
  group_mod : Option Nat
  meter_mod : Option Nat
  bands : Option Nat
  new_buckets : Option Nat
  group_existed : Int
  deriving DecidableEq, Repr

/-- What ofputil_decode_requestforward reads from the outer message:
the payload byte count left after pulling the outer header (`b.size`),
the outer version, the inner header's declared length / version / xid,
and the outcomes of the external recognizer and sub-decoders. -/
structure requestforward_outer where
  bsize : Nat
  outer_version : Nat
  inner_length : Nat
  inner_version : Nat
  inner_xid : Nat
  typeDecode : Except OfpErr ofptype
  groupModDecode : Except OfpErr Nat
  meterModDecode : Except OfpErr (Nat × Nat)
  deriving Repr

/-- sizeof(struct ofp_header). -/
def OFP_HEADER_LEN : Nat := 8

/-- ofputil_decode_requestforward (ofp-monitor.c:1396-1455).  On
sub-decode failure the partially allocated inner record is freed and
the error propagated (the freeing is a memory effect with no residue in
the returned value, which is all this value-level model sees). -/
def ofputil_decode_requestforward (o : requestforward_outer) :
    Except OfpErr ofputil_requestforward :=
  if o.bsize < OFP_HEADER_LEN then .error .OFPBFC_MSG_BAD_LEN
  else if o.inner_length < OFP_HEADER_LEN ∨ o.inner_length > o.bsize then
    .error .OFPBFC_MSG_BAD_LEN
  else if o.inner_version ≠ o.outer_version then .error .OFPBRC_BAD_VERSION
  else
    match o.typeDecode with
    | .error e => .error e
    | .ok t =>
      match t with
      | .OFPTYPE_GROUP_MOD =>
        match o.groupModDecode with
        | .error e => .error e
        | .ok g =>
          .ok { xid := o.inner_xid
                reason := OFPRFR_GROUP_MOD
                group_mod := some g
                meter_mod := none
                bands := none
                new_buckets := none
                group_existed := -1 }
      | .OFPTYPE_METER_MOD =>
        match o.meterModDecode with
        | .error e => .error e
        | .ok mm =>
          .ok { xid := o.inner_xid
                reason := OFPRFR_METER_MOD
                group_mod := none
                meter_mod := some mm.1
                bands := some mm.2
                new_buckets := none
                group_existed := -1 }
      | .otherType _ => .error .OFPBFC_MSG_UNSUP

/- =====================================================================
Theorems. -/

/-- Any number is at most its round-up to a multiple of 8. -/
theorem roundUp8_le (n : Nat) : n ≤ roundUp8 n := by
  unfold roundUp8; omega

/-- The round-up is a multiple of 8. -/
theorem roundUp8_mod (n : Nat) : roundUp8 n % 8 = 0 := by
  unfold roundUp8; omega

/-- In-range unsigned 32-bit subtraction agrees with plain subtraction. -/
theorem usub32_of_le (a b : Nat) (h1 : b ≤ a) (h2 : a < 4294967296) :
    usub32 a b = a - b := by
  unfold usub32; omega

/-- C1 counterexample: `ofp_to_nx_flow_update_event` does not treat
`OFPFME_INITIAL` as an internal-invariant violation: the first switch
arm (ofp-monitor.c:407-409) lets `OFPFME_INITIAL` fall through to the
`OFPFME_ADDED` case, so it maps to `NXFME_ADDED` instead of faulting. -/
theorem initial_maps_to_added_not_fatal :
    ofp_to_nx_flow_update_event OFPFME_INITIAL = some NXFME_ADDED ∧
    ofp_to_nx_flow_update_event OFPFME_INITIAL ≠ none := by
  constructor
  · rfl
  · decide

/-- C1 (amended): the canonical-to-wire event translator maps added to
added, removed to deleted, modified to modified, abbrev to abbrev, and
also initial to added (it shares the added switch arm); paused,
resumed, and every out-of-range input are fatal internal-invariant
violations (`OVS_NOT_REACHED()`). -/
theorem ofp_to_nx_flow_update_event_characterization :
    ofp_to_nx_flow_update_event OFPFME_ADDED = some NXFME_ADDED ∧
    ofp_to_nx_flow_update_event OFPFME_REMOVED = some NXFME_DELETED ∧
    ofp_to_nx_flow_update_event OFPFME_MODIFIED = some NXFME_MODIFIED ∧
    ofp_to_nx_flow_update_event OFPFME_ABBREV = some NXFME_ABBREV ∧
    ofp_to_nx_flow_update_event OFPFME_INITIAL = some NXFME_ADDED ∧
    ofp_to_nx_flow_update_event OFPFME_PAUSED = none ∧
    ofp_to_nx_flow_update_event OFPFME_RESUMED = none ∧
    ∀ e, OFPFME_RESUMED < e → ofp_to_nx_flow_update_event e = none := by
  refine ⟨rfl, rfl, rfl, rfl, rfl, rfl, rfl, ?_⟩
  intro e he
  simp only [OFPFME_RESUMED] at he
  simp only [ofp_to_nx_flow_update_event, OFPFME_INITIAL, OFPFME_ADDED,
             OFPFME_REMOVED, OFPFME_MODIFIED, OFPFME_ABBREV]
  rw [if_neg (by omega), if_neg (by omega), if_neg (by omega),
      if_neg (by omega)]

/-- Witness for the amended C1 theorem at the concrete input 7. -/
theorem ofp_to_nx_flow_update_event_characterization_witness :
    ofp_to_nx_flow_update_event 7 = none :=
  ofp_to_nx_flow_update_event_characterization.2.2.2.2.2.2.2 7 (by decide)

/-- C2: a first call of ofputil_append_flow_monitor_request on an empty
buffer appends the message header and one record, but a second call on
the resulting non-empty buffer leaves the buffer completely unchanged
(appends nothing), because the whole version switch sits behind
`if (!msg->size)` (ofp-monitor.c:574). -/
theorem append_flow_monitor_request_noop_on_nonempty :
    ofputil_append_flow_monitor_request
      { hdrNx := 16, hdrOnf := 16, hdrOfp14 := 16,
        nxPutMatch := fun _ => 8, oxmPutMatch := fun _ _ => 8 }
      { id := 1, command := OFPFMC_ADD, flags := OFPFMF_ADD, out_port := 0,
        out_group := OFPG_ANY, table_id := 255, theMatch := ⟨0, 0⟩ }
      { size := 0, records := 0 } .OFP10_VERSION
      = { size := 40, records := 1 } ∧
    ofputil_append_flow_monitor_request
      { hdrNx := 16, hdrOnf := 16, hdrOfp14 := 16,
        nxPutMatch := fun _ => 8, oxmPutMatch := fun _ _ => 8 }
      { id := 1, command := OFPFMC_ADD, flags := OFPFMF_ADD, out_port := 0,
        out_group := OFPG_ANY, table_id := 255, theMatch := ⟨0, 0⟩ }
      { size := 40, records := 1 } .OFP10_VERSION
      = { size := 40, records := 1 } := by
  constructor <;> rfl

/-- C3: encoding a FlowRemoved with table_id 255 into the
vendor-extension dialect stores the wire byte (255 + 1) mod 256 = 0,
and decoding maps stored 0 back to the unspecified sentinel 255. -/
theorem flow_removed_nxm_table_id_roundtrip (fr : ofputil_flow_removed)
    (oMatchLen : MatchV → Nat) (h : fr.table_id = 255) :
    (ofputil_decode_flow_removed
        (ofputil_encode_flow_removed fr .OFPUTIL_P_OF10_NXM
          oMatchLen)).table_id = 255 ∧
    flow_removed_msg_nx_table_id
        (ofputil_encode_flow_removed fr .OFPUTIL_P_OF10_NXM oMatchLen)
      = some 0 := by
  simp [ofputil_encode_flow_removed, ofputil_decode_flow_removed,
        flow_removed_msg_nx_table_id, h]

/-- Witness for the C3 theorem at a concrete record. -/
theorem flow_removed_nxm_table_id_roundtrip_witness :
    (ofputil_decode_flow_removed
        (ofputil_encode_flow_removed
          { theMatch := ⟨0, 0⟩, cookie := 5, priority := 100,
            reason := .OFPRR_DELETE, table_id := 255, duration_sec := 1,
            duration_nsec := 2, idle_timeout := 3, hard_timeout := 4,
            packet_count := 10, byte_count := 20 }
          .OFPUTIL_P_OF10_NXM (fun _ => 24))).table_id = 255 ∧
    flow_removed_msg_nx_table_id
        (ofputil_encode_flow_removed
          { theMatch := ⟨0, 0⟩, cookie := 5, priority := 100,
            reason := .OFPRR_DELETE, table_id := 255, duration_sec := 1,
            duration_nsec := 2, idle_timeout := 3, hard_timeout := 4,
            packet_count := 10, byte_count := 20 }
          .OFPUTIL_P_OF10_NXM (fun _ => 24)) = some 0 :=
  flow_removed_nxm_table_id_roundtrip _ _ rfl

/-- C4: the reason byte every encode branch stores is the input reason,
except that METER_DELETE is downgraded to DELETE exactly when the
target dialect predates OpenFlow 1.4; no other reason is ever
changed. -/
theorem encode_flow_removed_reason_downgrade (fr : ofputil_flow_removed)
    (p : ofputil_protocol) (oMatchLen : MatchV → Nat) :
    flow_removed_msg_reason (ofputil_encode_flow_removed fr p oMatchLen) =
      if fr.reason = .OFPRR_METER_DELETE ∧ of14_up p = false
      then .OFPRR_DELETE else fr.reason := by
  cases p <;> rfl

/-- C6: an NX-family record whose declared length both exceeds the
remaining bytes and violates the multiple-of-8 rule, but whose wire
event code (7) is unrecognized, makes ofputil_decode_flow_update abort
in the event translator (`OVS_NOT_REACHED()`) instead of returning the
malformed-length error, because the event conversion at
ofp-monitor.c:856 runs before the length checks at line 858. -/
theorem decode_flow_update_nx_aborts_before_length_check :
    ofputil_decode_flow_update_nx flow_update_zero
      { size := 8, event := 7, length := 12, xid := 0, reason := 0,
        idle_timeout := 0, hard_timeout := 0, table_id := 0, cookie := 0,
        priority := 0, match_len := 0, pullMatch := .ok ⟨0, 0⟩,
        pullActs := .ok [] }
      = .fatal := by
  rfl

/-- C5: a flow-monitor request record whose flags include none of
add/delete(removed)/modify, or include any bit outside the dialect's
recognized set, decodes to the bad-flags error in every variant —
except that a current-standard record with command OFPFMC_DELETE skips
flag validation entirely and proceeds directly to pulling the match. -/
theorem decode_flow_monitor_request_flag_validation :
    (∀ rq0 w, nx_flow_monitor_bad_flags w.flags = true →
       ofputil_decode_flow_monitor_request_nx rq0 w =
         .err .OFPMOFC_BAD_FLAGS) ∧
    (∀ rq0 w, nx_flow_monitor_bad_flags w.flags = true →
       ofputil_decode_flow_monitor_request_onf rq0 w =
         .err .OFPMOFC_BAD_FLAGS) ∧
    (∀ rq0 w, w.command ≠ OFPFMC_DELETE →
       ofp14_flow_monitor_bad_flags w.flags = true →
       ofputil_decode_flow_monitor_request_ofp14 rq0 w =
         .err .OFPMOFC_BAD_FLAGS) ∧
    (∀ rq0 w, w.command = OFPFMC_DELETE →
       ofputil_decode_flow_monitor_request_ofp14 rq0 w =
         match w.pullMatch with
         | .error e => .err e
         | .ok m => .ok { rq0 with id := w.monitor_id, command := w.command, theMatch := m }) := by
  refine ⟨?_, ?_, ?_, ?_⟩
  · intro rq0 w h
    simp [ofputil_decode_flow_monitor_request_nx, h]
  · intro rq0 w h
    simp [ofputil_decode_flow_monitor_request_onf, h]
  · intro rq0 w hc h
    simp [ofputil_decode_flow_monitor_request_ofp14, hc, h]
  · intro rq0 w hc
    simp [ofputil_decode_flow_monitor_request_ofp14, hc]

/-- Witness for the C5 theorem: flags 0 trip the no-add/delete/modify
rule in all three variants, and a current-standard delete-command
record with flags 0 still decodes straight to its match. -/
theorem decode_flow_monitor_request_flag_validation_witness :
    ofputil_decode_flow_monitor_request_nx
      { id := 0, command := 0, flags := 0, out_port := 0, out_group := 0,
        table_id := 0, theMatch := ⟨0, 0⟩ }
      { id := 1, flags := 0, out_port := 2, match_len := 0, table_id := 3,
        zerosOk := true, pullMatch := .ok ⟨0, 0⟩ }
      = .err .OFPMOFC_BAD_FLAGS ∧
    ofputil_decode_flow_monitor_request_onf
      { id := 0, command := 0, flags := 0, out_port := 0, out_group := 0,
        table_id := 0, theMatch := ⟨0, 0⟩ }
      { id := 1, flags := 0, match_len := 0, table_id := 3,
        zerosOk := true, pullPort := .ok 2, pullMatch := .ok ⟨0, 0⟩ }
      = .err .OFPMOFC_BAD_FLAGS ∧
    ofputil_decode_flow_monitor_request_ofp14
      { id := 0, command := 0, flags := 0, out_port := 0, out_group := 0,
        table_id := 0, theMatch := ⟨0, 0⟩ }
      { monitor_id := 1, command := OFPFMC_ADD, flags := 0, out_group := 0,
        table_id := 3, pullPort := .ok 2, pullMatch := .ok ⟨0, 0⟩ }
      = .err .OFPMOFC_BAD_FLAGS ∧
    ofputil_decode_flow_monitor_request_ofp14
      { id := 0, command := 0, flags := 0, out_port := 0, out_group := 0,
        table_id := 0, theMatch := ⟨0, 0⟩ }
      { monitor_id := 42, command := OFPFMC_DELETE, flags := 0,
        out_group := 0, table_id := 3, pullPort := .ok 2,
        pullMatch := .ok ⟨7, 8⟩ }
      = .ok { id := 42, command := OFPFMC_DELETE, flags := 0, out_port := 0,
              out_group := 0, table_id := 0, theMatch := ⟨7, 8⟩ } :=
  ⟨decode_flow_monitor_request_flag_validation.1 _ _ (by decide),
   decode_flow_monitor_request_flag_validation.2.1 _ _ (by decide),
   decode_flow_monitor_request_flag_validation.2.2.1 _ _ (by decide)
     (by decide),
   (decode_flow_monitor_request_flag_validation.2.2.2 _ _ rfl).trans rfl⟩

/-- C10: a flow-monitor request decoded from the vendor-extension or
industry-extension wire variant always carries command OFPFMC_ADD
(those wire formats have no command field; ofp-monitor.c:479 and 512
hard-code it), while the current-standard variant can produce a
command other than add. -/
theorem decode_flow_monitor_request_nx_onf_command_add :
    (∀ rq0 w rq, ofputil_decode_flow_monitor_request_nx rq0 w = .ok rq →
       rq.command = OFPFMC_ADD) ∧
    (∀ rq0 w rq, ofputil_decode_flow_monitor_request_onf rq0 w = .ok rq →
       rq.command = OFPFMC_ADD) ∧
    (∃ rq0 w rq,
       ofputil_decode_flow_monitor_request_ofp14 rq0 w = .ok rq ∧
       rq.command ≠ OFPFMC_ADD) := by
  refine ⟨?_, ?_, ?_⟩
  · intro rq0 w rq h
    unfold ofputil_decode_flow_monitor_request_nx at h
    split at h
    · exact absurd h (by simp)
    · split at h
      · exact absurd h (by simp)
      · split at h
        · exact absurd h (by simp)
        · simp only [fmr_result.ok.injEq] at h
          rw [← h]
  · intro rq0 w rq h
    unfold ofputil_decode_flow_monitor_request_onf at h
    split at h
    · exact absurd h (by simp)
    · split at h
      · exact absurd h (by simp)
      · split at h
        · exact absurd h (by simp)
        · split at h
          · exact absurd h (by simp)
          · simp only [fmr_result.ok.injEq] at h
            rw [← h]
  · refine ⟨{ id := 0, command := 0, flags := 0, out_port := 0,
              out_group := 0, table_id := 0, theMatch := ⟨0, 0⟩ },
            { monitor_id := 42, command := OFPFMC_DELETE, flags := 0,
              out_group := 0, table_id := 3, pullPort := .ok 2,
              pullMatch := .ok ⟨0, 0⟩ }, _, rfl, by decide⟩

/-- Witness for the C10 theorem: a concrete successful vendor-extension
decode whose resulting command the theorem pins to OFPFMC_ADD. -/
theorem decode_flow_monitor_request_nx_onf_command_add_witness :
    ({ id := 7, command := OFPFMC_ADD, flags := OFPFMF_ADD, out_port := 3,
       out_group := OFPG_ANY, table_id := 255, theMatch := ⟨0, 0⟩ }
       : ofputil_flow_monitor_request).command = OFPFMC_ADD :=
  decode_flow_monitor_request_nx_onf_command_add.1
    { id := 0, command := 9, flags := 0, out_port := 0, out_group := 0,
      table_id := 0, theMatch := ⟨0, 0⟩ }
    { id := 7, flags := NXFMF_ADD, out_port := 3, match_len := 0,
      table_id := 255, zerosOk := true, pullMatch := .ok ⟨0, 0⟩ }
    _ rfl

/-- C8: requestforward decode rejects, in order: an outer payload
smaller than a message header and an inner declared length smaller than
a header or larger than the payload (malformed-length), an inner
version differing from the outer version (bad-version), and any
recognized inner type other than group-mod/meter-mod (unsupported);
each rejection returns an error, so no decoded record is produced. -/
theorem decode_requestforward_validation :
    (∀ o : requestforward_outer, o.bsize < OFP_HEADER_LEN →
       ofputil_decode_requestforward o = .error .OFPBFC_MSG_BAD_LEN) ∧
    (∀ o : requestforward_outer, ¬ o.bsize < OFP_HEADER_LEN →
       (o.inner_length < OFP_HEADER_LEN ∨ o.inner_length > o.bsize) →
       ofputil_decode_requestforward o = .error .OFPBFC_MSG_BAD_LEN) ∧
    (∀ o : requestforward_outer, ¬ o.bsize < OFP_HEADER_LEN →
       ¬ (o.inner_length < OFP_HEADER_LEN ∨ o.inner_length > o.bsize) →
       o.inner_version ≠ o.outer_version →
       ofputil_decode_requestforward o = .error .OFPBRC_BAD_VERSION) ∧
    (∀ (o : requestforward_outer) (n : Nat),
       ¬ o.bsize < OFP_HEADER_LEN →
       ¬ (o.inner_length < OFP_HEADER_LEN ∨ o.inner_length > o.bsize) →
       o.inner_version = o.outer_version →
       o.typeDecode = .ok (.otherType n) →
       ofputil_decode_requestforward o = .error .OFPBFC_MSG_UNSUP) := by
  refine ⟨?_, ?_, ?_, ?_⟩
  · intro o h
    simp [ofputil_decode_requestforward, h]
  · intro o h1 h2
    simp [ofputil_decode_requestforward, h1, h2]
  · intro o h1 h2 h3
    simp [ofputil_decode_requestforward, h1, h2, h3]
  · intro o n h1 h2 h3 h4
    simp [ofputil_decode_requestforward, h1, h2, h3, h4]

/-- Witness for the C8 theorem, one concrete outer message per rejected
case. -/
theorem decode_requestforward_validation_witness :
    ofputil_decode_requestforward
      { bsize := 4, outer_version := 6, inner_length := 16,
        inner_version := 6, inner_xid := 0, typeDecode := .ok .OFPTYPE_GROUP_MOD,
        groupModDecode := .ok 0, meterModDecode := .ok (0, 0) }
      = .error .OFPBFC_MSG_BAD_LEN ∧
    ofputil_decode_requestforward
      { bsize := 16, outer_version := 6, inner_length := 24,
        inner_version := 6, inner_xid := 0, typeDecode := .ok .OFPTYPE_GROUP_MOD,
        groupModDecode := .ok 0, meterModDecode := .ok (0, 0) }
      = .error .OFPBFC_MSG_BAD_LEN ∧
    ofputil_decode_requestforward
      { bsize := 16, outer_version := 6, inner_length := 16,
        inner_version := 5, inner_xid := 0, typeDecode := .ok .OFPTYPE_GROUP_MOD,
        groupModDecode := .ok 0, meterModDecode := .ok (0, 0) }
      = .error .OFPBRC_BAD_VERSION ∧
    ofputil_decode_requestforward
      { bsize := 16, outer_version := 6, inner_length := 16,
        inner_version := 6, inner_xid := 0, typeDecode := .ok (.otherType 14),
        groupModDecode := .ok 0, meterModDecode := .ok (0, 0) }
      = .error .OFPBFC_MSG_UNSUP :=
  ⟨decode_requestforward_validation.1 _ (by decide),
   decode_requestforward_validation.2.1 _ (by decide) (by decide),
   decode_requestforward_validation.2.2.1 _ (by decide) (by decide)
     (by decide),
   decode_requestforward_validation.2.2.2 _ 14 (by decide) (by decide)
     rfl rfl⟩

/-- C9: whenever ofputil_append_flow_update returns, the
tunnel-metadata table pointer of the update's match equals its value
before the call: the in-call substitution of the caller-supplied table
is undone on every returning path (ofp-monitor.c:1193-1194 and 1275). -/
theorem append_flow_update_restores_tun_table (ext : upd_encode_ext)
    (update : ofputil_flow_update) (tailSize tun_table : Nat)
    (version : ofp_version) (r : ofputil_flow_update × Nat)
    (h : ofputil_append_flow_update ext update tailSize tun_table version
           = some r) :
    r.1.theMatch.tunTab = update.theMatch.tunTab := by
  unfold ofputil_append_flow_update at h
  cases version <;> simp only [] at h <;>
    first
    | (split at h
       · simp only [Option.some.injEq] at h
         rw [← h]
       · split at h
         · exact absurd h (by simp)
         · simp only [Option.some.injEq] at h
           rw [← h])
    | (split at h <;>
       · simp only [Option.some.injEq] at h
         rw [← h])

/-- Witness for the C9 theorem at a concrete abbreviated update. -/
theorem append_flow_update_restores_tun_table_witness :
    (({ event := OFPFME_ABBREV, xid := 3, reason := 0, idle_timeout := 0,
        hard_timeout := 0, table_id := 0, cookie := 0, priority := 0,
        theMatch := ⟨11, 0⟩, ofpacts := [], ofpacts_len := 0 }
        : ofputil_flow_update), 8).1.theMatch.tunTab = 11 :=
  append_flow_update_restores_tun_table
    { oxmPutMatch := fun _ _ => 8, nxPutMatch := fun _ => 8,
      putInstrs := fun _ => 0, putActs := fun _ => 0 }
    { event := OFPFME_ABBREV, xid := 3, reason := 0, idle_timeout := 0,
      hard_timeout := 0, table_id := 0, cookie := 0, priority := 0,
      theMatch := ⟨11, 0⟩, ofpacts := [], ofpacts_len := 0 }
    0 99 .OFP14_VERSION _ rfl

/-- A well-formed record of an NX-family stream has a positive wire
length that is a multiple of 8. -/
theorem nx_upd_rec_wireLen_wf (r : nx_upd_rec) (h : r.wfb = true) :
    0 < r.wireLen ∧ r.wireLen % 8 = 0 := by
  cases r with
  | nxAbbrev x =>
    simp only [nx_upd_rec.wireLen]
    exact ⟨by decide, by decide⟩
  | nxFull ev re it ht ti co pr ml mt acts al =>
    simp only [nx_upd_rec.wfb, decide_eq_true_eq] at h
    obtain ⟨-, hal, -⟩ := h
    have hm := roundUp8_mod ml
    simp only [nx_upd_rec.wireLen, FLOW_UPDATE_FULL_FIXED_LEN]
    omega

/-- A well-formed record of a current-standard stream has a positive
wire length that is a multiple of 8. -/
theorem ofp_upd_rec_wireLen_wf (r : ofp_upd_rec) (h : r.wfb = true) :
    0 < r.wireLen ∧ r.wireLen % 8 = 0 := by
  cases r with
  | ofpAbbrev x =>
    simp only [ofp_upd_rec.wireLen]
    exact ⟨by decide, by decide⟩
  | ofpPaused =>
    simp only [ofp_upd_rec.wireLen]
    exact ⟨by decide, by decide⟩
  | ofpResumed =>
    simp only [ofp_upd_rec.wireLen]
    exact ⟨by decide, by decide⟩
  | ofpFull ev re it ht ti co pr mp mt instrs il =>
    simp only [ofp_upd_rec.wfb, decide_eq_true_eq] at h
    obtain ⟨-, hmp, hil, -⟩ := h
    simp only [ofp_upd_rec.wireLen, FLOW_UPDATE_FULL_FIXED_LEN]
    omega

/-- A decode outcome with a recorded consumed count is a success with
exactly that consumed count. -/
theorem flow_update_result_consumed_ok (x : flow_update_result) (c : Nat)
    (h : x.consumed = some c) : ∃ u, x = .ok u c := by
  cases x with
  | eof => simp [flow_update_result.consumed] at h
  | fatal => simp [flow_update_result.consumed] at h
  | err e => simp [flow_update_result.consumed] at h
  | ok u k =>
    simp [flow_update_result.consumed] at h
    exact ⟨u, by rw [h]⟩

/-- Decoding a well-formed NX-family front record succeeds and consumes
exactly the record's wire bytes. -/
theorem decode_flow_update_nx_step (r : nx_upd_rec) (rest : Nat)
    (h : r.wfb = true) :
    (ofputil_decode_flow_update_nx flow_update_zero
        (r.front rest)).consumed = some r.wireLen := by
  cases r with
  | nxAbbrev x =>
    simp only [nx_upd_rec.front, nx_upd_rec.wireLen]
    unfold ofputil_decode_flow_update_nx
    simp [FLOW_UPDATE_ABBREV_LEN, FLOW_UPDATE_HEADER_LEN,
          FLOW_UPDATE_FULL_FIXED_LEN, nx_to_ofp_flow_update_event,
          NXFME_ABBREV, NXFME_ADDED, NXFME_DELETED, NXFME_MODIFIED,
          OFPFME_ABBREV, OFPFME_ADDED, OFPFME_REMOVED, OFPFME_MODIFIED,
          flow_update_result.consumed]
    (try split_ifs) <;> first
      | rfl
      | (exfalso; omega)
  | nxFull ev re it ht ti co pr ml mt acts al =>
    simp only [nx_upd_rec.wfb, decide_eq_true_eq] at h
    obtain ⟨hev, hal, hlen⟩ := h
    simp only [FLOW_UPDATE_FULL_FIXED_LEN] at hlen
    have hle := roundUp8_le ml
    have hm := roundUp8_mod ml
    have hsub : usub32 (24 + roundUp8 ml + al) (24 + roundUp8 ml) = al := by
      unfold usub32; omega
    simp only [nx_upd_rec.front, nx_upd_rec.wireLen]
    unfold ofputil_decode_flow_update_nx
    rcases hev with rfl | rfl | rfl <;>
    · simp [FLOW_UPDATE_ABBREV_LEN, FLOW_UPDATE_HEADER_LEN,
            FLOW_UPDATE_FULL_FIXED_LEN, nx_to_ofp_flow_update_event,
            NXFME_ABBREV, NXFME_ADDED, NXFME_DELETED, NXFME_MODIFIED,
            OFPFME_ABBREV, OFPFME_ADDED, OFPFME_REMOVED, OFPFME_MODIFIED,
            flow_update_result.consumed]
      (try split_ifs) <;> first
        | rfl
        | (rw [hsub])
        | (exfalso; omega)

/-- Decoding a well-formed current-standard front record succeeds and
consumes exactly the record's wire bytes. -/
theorem decode_flow_update_ofp_step (r : ofp_upd_rec) (rest : Nat)
    (h : r.wfb = true) :
    (ofputil_decode_flow_update_ofp14 flow_update_zero
        (r.front rest)).consumed = some r.wireLen := by
  cases r with
  | ofpAbbrev x =>
    simp only [ofp_upd_rec.front, ofp_upd_rec.wireLen]
    unfold ofputil_decode_flow_update_ofp14
    simp [FLOW_UPDATE_ABBREV_LEN, FLOW_UPDATE_HEADER_LEN,
          FLOW_UPDATE_PAUSED_LEN, FLOW_UPDATE_FULL_FIXED_LEN,
          OFPFME_ABBREV, OFPFME_PAUSED, OFPFME_RESUMED, OFPFME_INITIAL,
          OFPFME_ADDED, OFPFME_REMOVED, OFPFME_MODIFIED,
          flow_update_result.consumed]
    (try split_ifs) <;> first
      | rfl
      | (exfalso; omega)
  | ofpPaused =>
    simp only [ofp_upd_rec.front, ofp_upd_rec.wireLen]
    unfold ofputil_decode_flow_update_ofp14
    simp [FLOW_UPDATE_ABBREV_LEN, FLOW_UPDATE_HEADER_LEN,
          FLOW_UPDATE_PAUSED_LEN, FLOW_UPDATE_FULL_FIXED_LEN,
          OFPFME_ABBREV, OFPFME_PAUSED, OFPFME_RESUMED, OFPFME_INITIAL,
          OFPFME_ADDED, OFPFME_REMOVED, OFPFME_MODIFIED,
          flow_update_result.consumed]
    (try split_ifs) <;> first
      | rfl
      | (exfalso; omega)
  | ofpResumed =>
    simp only [ofp_upd_rec.front, ofp_upd_rec.wireLen]
    unfold ofputil_decode_flow_update_ofp14
    simp [FLOW_UPDATE_ABBREV_LEN, FLOW_UPDATE_HEADER_LEN,
          FLOW_UPDATE_PAUSED_LEN, FLOW_UPDATE_FULL_FIXED_LEN,
          OFPFME_ABBREV, OFPFME_PAUSED, OFPFME_RESUMED, OFPFME_INITIAL,
          OFPFME_ADDED, OFPFME_REMOVED, OFPFME_MODIFIED,
          flow_update_result.consumed]
    (try split_ifs) <;> first
      | rfl
      | (exfalso; omega)
  | ofpFull ev re it ht ti co pr mp mt instrs il =>
    simp only [ofp_upd_rec.wfb, decide_eq_true_eq] at h
    obtain ⟨hev, hmp, hil, hlen⟩ := h
    simp only [FLOW_UPDATE_FULL_FIXED_LEN] at hlen
    have hsub : usub32 (24 + mp + il) (24 + mp) = il := by
      unfold usub32; omega
    simp only [ofp_upd_rec.front, ofp_upd_rec.wireLen]
    unfold ofputil_decode_flow_update_ofp14
    rcases hev with rfl | rfl | rfl | rfl <;>
    · simp [FLOW_UPDATE_ABBREV_LEN, FLOW_UPDATE_HEADER_LEN,
            FLOW_UPDATE_FULL_FIXED_LEN, FLOW_UPDATE_PAUSED_LEN,
            OFPFME_ABBREV, OFPFME_PAUSED, OFPFME_RESUMED, OFPFME_INITIAL,
            OFPFME_ADDED, OFPFME_REMOVED, OFPFME_MODIFIED,
            flow_update_result.consumed]
      (try split_ifs) <;> first
        | rfl
        | (rw [hsub])
        | (exfalso; omega)

/-- Iterating the decoder down a well-formed NX-family buffer reaches
EndOfRecords, with every successful call consuming a positive multiple
of 8 bytes and the consumed totals summing to the buffer length. -/
theorem decode_nx_stream_wf (rs : List nx_upd_rec)
    (h : ∀ r ∈ rs, r.wfb = true) :
    (decode_nx_stream rs).2 = .endOfRecords ∧
    (decode_nx_stream rs).1.sum = nx_stream_size rs ∧
    ∀ c ∈ (decode_nx_stream rs).1, 0 < c ∧ c % 8 = 0 := by
  induction rs with
  | nil => exact ⟨rfl, rfl, by simp [decode_nx_stream]⟩
  | cons r rest ih =>
    obtain ⟨u, hu⟩ :=
      flow_update_result_consumed_ok _ _
        (decode_flow_update_nx_step r (nx_stream_size rest)
          (h r (List.mem_cons_self r rest)))
    have ihr := ih (fun x hx => h x (List.mem_cons_of_mem r hx))
    have hwl := nx_upd_rec_wireLen_wf r (h r (List.mem_cons_self r rest))
    simp only [decode_nx_stream, hu]
    refine ⟨ihr.1, ?_, ?_⟩
    · simp only [List.sum_cons, ihr.2.1, nx_stream_size, List.map_cons]
    · intro c hc
      rcases List.mem_cons.1 hc with rfl | hc
      · exact hwl
      · exact ihr.2.2 c hc

/-- Iterating the decoder down a well-formed current-standard buffer
reaches EndOfRecords with the same byte accounting. -/
theorem decode_ofp_stream_wf (rs : List ofp_upd_rec)
    (h : ∀ r ∈ rs, r.wfb = true) :
    (decode_ofp_stream rs).2 = .endOfRecords ∧
    (decode_ofp_stream rs).1.sum = ofp_stream_size rs ∧
    ∀ c ∈ (decode_ofp_stream rs).1, 0 < c ∧ c % 8 = 0 := by
  induction rs with
  | nil => exact ⟨rfl, rfl, by simp [decode_ofp_stream]⟩
  | cons r rest ih =>
    obtain ⟨u, hu⟩ :=
      flow_update_result_consumed_ok _ _
        (decode_flow_update_ofp_step r (ofp_stream_size rest)
          (h r (List.mem_cons_self r rest)))
    have ihr := ih (fun x hx => h x (List.mem_cons_of_mem r hx))
    have hwl := ofp_upd_rec_wireLen_wf r (h r (List.mem_cons_self r rest))
    simp only [decode_ofp_stream, hu]
    refine ⟨ihr.1, ?_, ?_⟩
    · simp only [List.sum_cons, ihr.2.1, ofp_stream_size, List.map_cons]
    · intro c hc
      rcases List.mem_cons.1 hc with rfl | hc
      · exact hwl
      · exact ihr.2.2 c hc

/-- C7: for every finite well-formed update stream, in both wire
families, repeated decode calls end in EndOfRecords, each successful
call consumes a positive multiple of 8 bytes, and the bytes consumed
across the run sum to the buffer length. -/
theorem flow_update_stream_iteration :
    (∀ rs : List nx_upd_rec, (∀ r ∈ rs, r.wfb = true) →
       (decode_nx_stream rs).2 = .endOfRecords ∧
       (decode_nx_stream rs).1.sum = nx_stream_size rs ∧
       ∀ c ∈ (decode_nx_stream rs).1, 0 < c ∧ c % 8 = 0) ∧
    (∀ rs : List ofp_upd_rec, (∀ r ∈ rs, r.wfb = true) →
       (decode_ofp_stream rs).2 = .endOfRecords ∧
       (decode_ofp_stream rs).1.sum = ofp_stream_size rs ∧
       ∀ c ∈ (decode_ofp_stream rs).1, 0 < c ∧ c % 8 = 0) :=
  ⟨decode_nx_stream_wf, decode_ofp_stream_wf⟩

/-- Witness for the C7 theorem on concrete two-record streams. -/
theorem flow_update_stream_iteration_witness :
    ((decode_nx_stream [.nxAbbrev 5, .nxFull NXFME_ADDED 0 30 0 2 9 100 4
        ⟨0, 0⟩ [1] 8]).2 = .endOfRecords ∧
     (decode_nx_stream [.nxAbbrev 5, .nxFull NXFME_ADDED 0 30 0 2 9 100 4
        ⟨0, 0⟩ [1] 8]).1.sum
       = nx_stream_size [.nxAbbrev 5, .nxFull NXFME_ADDED 0 30 0 2 9 100 4
           ⟨0, 0⟩ [1] 8] ∧
     ∀ c ∈ (decode_nx_stream [.nxAbbrev 5, .nxFull NXFME_ADDED 0 30 0 2 9
         100 4 ⟨0, 0⟩ [1] 8]).1, 0 < c ∧ c % 8 = 0) ∧
    ((decode_ofp_stream [.ofpPaused, .ofpAbbrev 9]).2 = .endOfRecords ∧
     (decode_ofp_stream [.ofpPaused, .ofpAbbrev 9]).1.sum
       = ofp_stream_size [.ofpPaused, .ofpAbbrev 9] ∧
     ∀ c ∈ (decode_ofp_stream [.ofpPaused, .ofpAbbrev 9]).1,
       0 < c ∧ c % 8 = 0) :=
  ⟨flow_update_stream_iteration.1 _ (by decide),
   flow_update_stream_iteration.2 _ (by decide)⟩

end OfpMonitor
